import Mathlib

/-!
# Verification of the runtime11 syscall and entry-stub layer

Shallow embedding of the runtime11 repository's core: the Result Decoder
(`result_from_retval` in `rt11-linux/src/syscall.rs`), the portable Syscall
dispatch trait (`rt11-ffi-linux/src/common/mod.rs`), the Execution Context
capability operations (`close`, `exit`, `restart_syscall`), the architecture
descriptors and entry-stub generator (`rt11-entrypoint`), and the
per-architecture syscall backend register assignments (`rt11-ffi-linux`).

Machine words are modelled as `Nat` with explicit truncation modulo `2 ^ w`.
The native word width is 64 bits (the x86-64 build target whose syscall-number
table is present in the sources).
-/

/-! ## Machine words (64-bit `usize`) -/

/-- Bit width of the native machine word (`usize` on a 64-bit target). -/
def usizeBits : Nat := 64

/-- `core::usize::MAX`, i.e. `2 ^ 64 - 1`. -/
def usizeMax : Nat := 2 ^ usizeBits - 1

/-- Truncate to a machine word: the result of a wrapping `usize` operation. -/
def wrapUsize (n : Nat) : Nat := n % 2 ^ usizeBits

/-- Truncate to 16 bits: the Rust cast `as u16`. -/
def toU16 (n : Nat) : Nat := n % 2 ^ 16

/-- Bitwise complement `!r` of a 64-bit word: for `r ≤ usizeMax` this is
`usizeMax - r` (xor with the all-ones word). -/
def usizeNot (r : Nat) : Nat := usizeMax - r

theorem usizeMax_eq : usizeMax = 18446744073709551615 := by
  norm_num [usizeMax, usizeBits]

theorem two_pow_usizeBits_eq : 2 ^ usizeBits = 18446744073709551616 := by
  norm_num [usizeBits]

/-! ## Result Decoder (`rt11-linux/src/syscall.rs`, `result_from_retval`) -/

/-- Error Number: the kernel error code. The source declares
`pub type Errno = u16`; we model the `u16` as a `Nat`, with the `as u16`
truncation made explicit at every cast site (`toU16`). -/
abbrev Errno := Nat

/-- `result_from_retval`: decode the raw `usize` return word of a Linux
system call into `Result<usize, Errno>`.

Source (`rt11-linux/src/syscall.rs`):
```text
if r > core::usize::MAX - 4096 { Err((!r + 1) as u16) } else { Ok(r) }
```
`!r + 1` is the wrapping two's-complement negation, then truncated to `u16`. -/
def result_from_retval (r : Nat) : Except Errno Nat :=
  if r > usizeMax - 4096 then
    Except.error (toU16 (wrapUsize (usizeNot r + 1)))
  else
    Except.ok r

/-- The kernel-side encoding of an errno: the pointer-width two's-complement
negation of the positive code, i.e. `0` wrapping-minus `e` on a 64-bit word. -/
def encode_errno (e : Nat) : Nat := (2 ^ usizeBits - e) % 2 ^ usizeBits

/-- Helper: the decoder maps the error band back onto the errno. -/
theorem result_from_retval_band (r : Nat) (hlo : usizeMax - 4095 ≤ r)
    (hhi : r ≤ usizeMax) :
    result_from_retval r = Except.error (2 ^ usizeBits - r) := by
  rw [usizeMax_eq] at hlo hhi
  have hgt : r > usizeMax - 4096 := by rw [usizeMax_eq]; omega
  have hval : toU16 (wrapUsize (usizeNot r + 1)) = 2 ^ usizeBits - r := by
    unfold toU16 wrapUsize usizeNot
    rw [usizeMax_eq, two_pow_usizeBits_eq]
    omega
  unfold result_from_retval
  rw [if_pos hgt, hval]

/-- Helper: the decoder is the identity (as `Ok`) below the error band. -/
theorem result_from_retval_ok (r : Nat) (h : r < usizeMax - 4095) :
    result_from_retval r = Except.ok r := by
  have hn : ¬ (r > usizeMax - 4096) := by
    rw [usizeMax_eq] at h ⊢
    omega
  unfold result_from_retval
  rw [if_neg hn]

/-- Helper: decoding the kernel encoding of an in-range errno recovers it. -/
theorem result_from_retval_encode (e : Nat) (h1 : 1 ≤ e) (h2 : e ≤ 4096) :
    result_from_retval (encode_errno e) = Except.error e := by
  have henc : encode_errno e = 2 ^ usizeBits - e := by
    unfold encode_errno
    rw [two_pow_usizeBits_eq]
    omega
  have hband := result_from_retval_band (2 ^ usizeBits - e)
    (by rw [usizeMax_eq, two_pow_usizeBits_eq]; omega)
    (by rw [usizeMax_eq, two_pow_usizeBits_eq]; omega)
  have hsub : 2 ^ usizeBits - (2 ^ usizeBits - e) = e := by
    rw [two_pow_usizeBits_eq]
    omega
  rw [henc, hband, hsub]

/-- **C1.** For every 64-bit raw word `r`, `result_from_retval` returns
`Err(bitwise-complement(r) + 1, truncated to 16 bits)` — concretely the value
`2 ^ 64 - r` — exactly when `r` lies in the top 4096 values
`[MAX - 4095, MAX]`, and `Ok(r)` with `r` unmodified otherwise; in
particular `decode (MAX - 4096) = Ok (MAX - 4096)`,
`decode (MAX - 4095) = Err 4096`, `decode (MAX - 4094) = Err 4095`,
`decode MAX = Err 1`. -/
theorem result_from_retval_decodes (r : Nat) (h : r ≤ usizeMax) :
    (usizeMax - 4095 ≤ r →
      result_from_retval r
        = Except.error (toU16 (wrapUsize (usizeNot r + 1)))
      ∧ result_from_retval r = Except.error (2 ^ usizeBits - r))
    ∧ (r < usizeMax - 4095 → result_from_retval r = Except.ok r)
    ∧ result_from_retval (usizeMax - 4096) = Except.ok (usizeMax - 4096)
    ∧ result_from_retval (usizeMax - 4095) = Except.error 4096
    ∧ result_from_retval (usizeMax - 4094) = Except.error 4095
    ∧ result_from_retval usizeMax = Except.error 1 := by
  refine ⟨fun hlo => ⟨?_, result_from_retval_band r hlo h⟩,
    result_from_retval_ok r, ?_, ?_, ?_, ?_⟩
  · unfold result_from_retval
    rw [if_pos]
    rw [usizeMax_eq] at hlo; rw [usizeMax_eq]; omega
  · apply result_from_retval_ok
    rw [usizeMax_eq]; omega
  · have hband := result_from_retval_band (usizeMax - 4095)
      (Nat.le_refl _) (Nat.sub_le _ _)
    have hsub : 2 ^ usizeBits - (usizeMax - 4095) = 4096 := by
      rw [usizeMax_eq, two_pow_usizeBits_eq]
    rw [hband, hsub]
  · have hband := result_from_retval_band (usizeMax - 4094)
      (by rw [usizeMax_eq]; omega) (Nat.sub_le _ _)
    have hsub : 2 ^ usizeBits - (usizeMax - 4094) = 4095 := by
      rw [usizeMax_eq, two_pow_usizeBits_eq]
    rw [hband, hsub]
  · have hband := result_from_retval_band usizeMax
      (Nat.sub_le _ _) (Nat.le_refl _)
    have hsub : 2 ^ usizeBits - usizeMax = 1 := by
      rw [usizeMax_eq, two_pow_usizeBits_eq]
    rw [hband, hsub]

/-- Witness for C1 at the concrete word `r = usizeMax`. -/
theorem result_from_retval_decodes_witness :
    usizeMax ≤ usizeMax ∧ result_from_retval usizeMax = Except.error 1 :=
  ⟨Nat.le_refl _, (result_from_retval_decodes usizeMax (Nat.le_refl _)).2.2.2.2.2⟩

/-- **C9.** Round-trip of the kernel error encoding: for every errno
`1 ≤ e ≤ 4096`, encoding it as the pointer-width two's-complement negation
(`0` wrapping-minus `e`) and then decoding yields exactly `Err e`. -/
theorem encode_then_decode (e : Nat) (h1 : 1 ≤ e) (h2 : e ≤ 4096) :
    result_from_retval (encode_errno e) = Except.error e :=
  result_from_retval_encode e h1 h2

/-- Witness for C9 at `e = 9` (`EBADF`). -/
theorem encode_then_decode_witness :
    1 ≤ 9 ∧ 9 ≤ 4096 ∧ result_from_retval (encode_errno 9) = Except.error 9 :=
  ⟨by norm_num, by norm_num,
    encode_then_decode 9 (by norm_num) (by norm_num)⟩

/-- **C10.** The decoder never produces an out-of-domain errno: if
`result_from_retval r = Err e` for a 64-bit word `r`, then `1 ≤ e ≤ 4096`
(in particular never `Err 0`), and the `as u16` truncation is lossless on
the whole error band. -/
theorem result_from_retval_errno_range (r e : Nat) (hr : r ≤ usizeMax)
    (he : result_from_retval r = Except.error e) :
    1 ≤ e ∧ e ≤ 4096
    ∧ toU16 (wrapUsize (usizeNot r + 1)) = wrapUsize (usizeNot r + 1) := by
  unfold result_from_retval at he
  rw [usizeMax_eq] at hr
  by_cases hgt : r > usizeMax - 4096
  · rw [if_pos hgt] at he
    rw [usizeMax_eq] at hgt
    have hval : toU16 (wrapUsize (usizeNot r + 1)) = e := Except.error.inj he
    unfold toU16 wrapUsize usizeNot at hval ⊢
    rw [usizeMax_eq, two_pow_usizeBits_eq] at hval ⊢
    refine ⟨?_, ?_, ?_⟩ <;> omega
  · rw [if_neg hgt] at he
    exact absurd he (by simp)

/-- Witness for C10 at `r = usizeMax - 1` (decodes to `Err 2`). -/
theorem result_from_retval_errno_range_witness :
    usizeMax - 1 ≤ usizeMax
    ∧ result_from_retval (usizeMax - 1) = Except.error 2
    ∧ (1 ≤ 2 ∧ 2 ≤ 4096
        ∧ toU16 (wrapUsize (usizeNot (usizeMax - 1) + 1))
          = wrapUsize (usizeNot (usizeMax - 1) + 1)) := by
  have hdec : result_from_retval (usizeMax - 1) = Except.error 2 := by
    have hsub : 2 ^ usizeBits - (usizeMax - 1) = 2 := by
      rw [usizeMax_eq, two_pow_usizeBits_eq]
    rw [result_from_retval_band (usizeMax - 1)
      (by rw [usizeMax_eq]; omega) (Nat.sub_le _ _), hsub]
  exact ⟨Nat.sub_le _ _, hdec,
    result_from_retval_errno_range (usizeMax - 1) 2 (Nat.sub_le _ _) hdec⟩

/-! ## Syscall Dispatch trait (`rt11-ffi-linux/src/common/mod.rs`)

The trait's only mandatory operation is `syscall6`; every lower arity has a
default body that zero-pads and forwards to `syscall6`. To state observable
equivalence ("kernel-visible effect and returned word") we model a backend as
a function from the syscall number and six argument words to a new
kernel-visible state (type parameter `σ`) and the raw returned word. -/

/-- A Syscall dispatch backend: the mandatory `syscall6` operation over an
abstract kernel-visible state `σ`. -/
structure Syscall (σ : Type) where
  syscall6 : Nat → Nat → Nat → Nat → Nat → Nat → Nat → σ → σ × Nat

/-- Default body of `syscall0`: zero-pad and forward to `syscall6`. -/
def Syscall.syscall0 {σ : Type} (s : Syscall σ) (nr : Nat) (st : σ) : σ × Nat :=
  s.syscall6 nr 0 0 0 0 0 0 st

/-- Default body of `syscall1`: zero-pad and forward to `syscall6`. -/
def Syscall.syscall1 {σ : Type} (s : Syscall σ) (nr arg0 : Nat) (st : σ) :
    σ × Nat :=
  s.syscall6 nr arg0 0 0 0 0 0 st

/-- Default body of `syscall2`: zero-pad and forward to `syscall6`. -/
def Syscall.syscall2 {σ : Type} (s : Syscall σ) (nr arg0 arg1 : Nat) (st : σ) :
    σ × Nat :=
  s.syscall6 nr arg0 arg1 0 0 0 0 st

/-- Default body of `syscall3`: zero-pad and forward to `syscall6`. -/
def Syscall.syscall3 {σ : Type} (s : Syscall σ) (nr arg0 arg1 arg2 : Nat)
    (st : σ) : σ × Nat :=
  s.syscall6 nr arg0 arg1 arg2 0 0 0 st

/-- Default body of `syscall4`: zero-pad and forward to `syscall6`. -/
def Syscall.syscall4 {σ : Type} (s : Syscall σ) (nr arg0 arg1 arg2 arg3 : Nat)
    (st : σ) : σ × Nat :=
  s.syscall6 nr arg0 arg1 arg2 arg3 0 0 st

/-- Default body of `syscall5`: zero-pad and forward to `syscall6`. -/
def Syscall.syscall5 {σ : Type} (s : Syscall σ)
    (nr arg0 arg1 arg2 arg3 arg4 : Nat) (st : σ) : σ × Nat :=
  s.syscall6 nr arg0 arg1 arg2 arg3 arg4 0 st

/-- **C2.** For every backend that keeps the default lower-arity operations,
and for every arity `n ∈ 0..5`, invoking `syscalln nr a0 .. a(n-1)` is
observably identical — same kernel-visible effect and same returned word —
to invoking `syscall6 nr a0 .. a(n-1) 0 .. 0` with the missing arguments
zeroed. -/
theorem syscall_defaults_forward {σ : Type} (s : Syscall σ)
    (nr a0 a1 a2 a3 a4 : Nat) (st : σ) :
    Syscall.syscall0 s nr st = s.syscall6 nr 0 0 0 0 0 0 st
    ∧ Syscall.syscall1 s nr a0 st = s.syscall6 nr a0 0 0 0 0 0 st
    ∧ Syscall.syscall2 s nr a0 a1 st = s.syscall6 nr a0 a1 0 0 0 0 st
    ∧ Syscall.syscall3 s nr a0 a1 a2 st = s.syscall6 nr a0 a1 a2 0 0 0 st
    ∧ Syscall.syscall4 s nr a0 a1 a2 a3 st = s.syscall6 nr a0 a1 a2 a3 0 0 st
    ∧ Syscall.syscall5 s nr a0 a1 a2 a3 a4 st
        = s.syscall6 nr a0 a1 a2 a3 a4 0 st :=
  ⟨rfl, rfl, rfl, rfl, rfl, rfl⟩

/-! ## Execution Context capability operations (`rt11-linux/src/syscall.rs`)

`Syscall::close`, `Syscall::exit` and `Syscall::restart_syscall` each invoke
one fixed-arity dispatch operation with the native syscall number and feed the
single raw word through `result_from_retval`. The syscall numbers below come
from the native x86-64 table (`rt11-ffi-linux/src/x86_64/nr.rs`). -/

/-- `nr::CLOSE` (x86-64 table). -/
def NR_CLOSE : Nat := 3

/-- `nr::EXIT` (x86-64 table). -/
def NR_EXIT : Nat := 60

/-- `nr::RESTART_SYSCALL` (x86-64 table). -/
def NR_RESTART_SYSCALL : Nat := 219

/-- `errno::EBADF` (`rt11-ffi-linux/src/common/errno.rs`). -/
def EBADF : Nat := 9

/-- `errno::EINTR` (`rt11-ffi-linux/src/common/errno.rs`). -/
def EINTR : Nat := 4

/-- `Syscall::close` of the Execution Context: invoke `syscall1` with
`nr::CLOSE` and the descriptor, then decode the raw word with
`result_from_retval`. Parametric in the backend and the kernel state. -/
def sys_close {σ : Type} (k : Syscall σ) (st : σ) (fd : Nat) :
    σ × Except Errno Nat :=
  let p := Syscall.syscall1 k NR_CLOSE fd st
  (p.1, result_from_retval p.2)

/-- `Syscall::restart_syscall` of the Execution Context: invoke `syscall0`
with `nr::RESTART_SYSCALL`, then decode the raw word with
`result_from_retval`. -/
def sys_restart_syscall {σ : Type} (k : Syscall σ) (st : σ) :
    σ × Except Errno Nat :=
  let p := Syscall.syscall0 k NR_RESTART_SYSCALL st
  (p.1, result_from_retval p.2)

/-- Modelled from the spec: the kernel side of the `close` system call, which
is not part of this repository. The kernel-visible state is the descriptor
table (the list of open descriptor values). `close` on an open descriptor
unlinks it and returns the raw word `0`; on a descriptor that is not open it
is a no-op and returns the two's-complement encoding of `EBADF`. Any other
syscall number is answered with `ENOSYS` (38) and leaves the table alone. -/
def closeKernel : Syscall (List Nat) where
  syscall6 := fun nr a0 _ _ _ _ _ table =>
    if nr = NR_CLOSE then
      if a0 ∈ table then (table.erase a0, 0)
      else (table, encode_errno EBADF)
    else (table, encode_errno 38)

/-- **C3.** `close fd` on a descriptor value that does not denote an open
descriptor (the kernel reports `EBADF`) returns `Err EBADF`, i.e. `Err 9`,
and is a no-op: the descriptor table is unchanged. -/
theorem close_invalid_fd_ebadf (table : List Nat) (fd : Nat)
    (h : fd ∉ table) :
    sys_close closeKernel table fd = (table, Except.error EBADF) := by
  have hdec : result_from_retval (encode_errno EBADF) = Except.error EBADF :=
    result_from_retval_encode EBADF (by norm_num [EBADF]) (by norm_num [EBADF])
  simp [sys_close, Syscall.syscall1, closeKernel, h, hdec]

/-- Witness for C3: closing descriptor `7` when only `0`, `1`, `2` are open. -/
theorem close_invalid_fd_ebadf_witness :
    (7 : Nat) ∉ [0, 1, 2]
    ∧ sys_close closeKernel [0, 1, 2] 7 = ([0, 1, 2], Except.error EBADF) :=
  ⟨by decide, close_invalid_fd_ebadf [0, 1, 2] 7 (by decide)⟩

/-- A backend that records every kernel transition: the state is the trace of
invocations, each recorded as the pair of the syscall number and the six
argument words; the raw returned word is given by the arbitrary kernel
response function `raw`. -/
def traceBackend (raw : Nat → List Nat → Nat) :
    Syscall (List (Nat × List Nat)) where
  syscall6 := fun nr a0 a1 a2 a3 a4 a5 t =>
    (t ++ [(nr, [a0, a1, a2, a3, a4, a5])], raw nr [a0, a1, a2, a3, a4, a5])

/-- **C7.** The capability operations that return — `close` and
`restart_syscall` — each perform exactly one kernel transition per
invocation (the trace gains exactly one entry, with the documented syscall
number and zero-padded arguments), and the returned typed value is exactly
`result_from_retval` applied once to the single raw word the kernel
answered, whatever that word is: no error code is remapped or swallowed and
no retry occurs on any error, including `EINTR`. -/
theorem capability_ops_single_transition (raw : Nat → List Nat → Nat)
    (fd : Nat) :
    (sys_close (traceBackend raw) [] fd).1 = [(NR_CLOSE, [fd, 0, 0, 0, 0, 0])]
    ∧ (sys_close (traceBackend raw) [] fd).2
        = result_from_retval (raw NR_CLOSE [fd, 0, 0, 0, 0, 0])
    ∧ (sys_restart_syscall (traceBackend raw) []).1
        = [(NR_RESTART_SYSCALL, [0, 0, 0, 0, 0, 0])]
    ∧ (sys_restart_syscall (traceBackend raw) []).2
        = result_from_retval (raw NR_RESTART_SYSCALL [0, 0, 0, 0, 0, 0]) :=
  ⟨rfl, rfl, rfl, rfl⟩

/-! ## `Syscall::exit` never returns -/

/-- Outcome of running the body of `Syscall::exit`. -/
inductive ExitOutcome where
  /-- The kernel transition did not return; the task is gone with the given
  exit status (the kernel keeps the low byte of `code`). -/
  | terminated (status : Nat)
  /-- The code path after the kernel transition ran: the
  `core::unreachable!` branch, with the raw word the kernel returned. -/
  | panicked (r : Nat)
deriving DecidableEq

/-- Modelled from the spec: the `EXIT` system call terminates the calling
task and never returns under any input, so the kernel transition yields no
return word. -/
def exitKernelReturns (_code : Nat) : Option Nat := none

/-- `Syscall::exit` of the Execution Context: invoke `syscall1` with
`nr::EXIT` and `code`; if the transition ever produced a word `r`, the
following `core::unreachable!` branch would run (`panicked r`); since it
does not, the task terminates with the low byte of `code`. The first
component records the single dispatch invocation performed. -/
def sys_exit (code : Nat) : (Nat × List Nat) × ExitOutcome :=
  let call := (NR_EXIT, [code, 0, 0, 0, 0, 0])
  match exitKernelReturns code with
  | none => (call, ExitOutcome.terminated (code % 2 ^ 8))
  | some r => (call, ExitOutcome.panicked r)

/-- **C6.** For every input `code`, `exit code` invokes the `EXIT` syscall
(one `syscall1` dispatch with `nr::EXIT`) and never returns: the outcome is
always termination, and the unreachable branch after the kernel transition
is never executed. -/
theorem exit_never_returns (code : Nat) :
    (sys_exit code).1 = (NR_EXIT, [code, 0, 0, 0, 0, 0])
    ∧ (sys_exit code).2 = ExitOutcome.terminated (code % 2 ^ 8)
    ∧ ∀ r : Nat, (sys_exit code).2 ≠ ExitOutcome.panicked r := by
  refine ⟨rfl, rfl, fun r h => ?_⟩
  simp [sys_exit, exitKernelReturns] at h

/-! ## Architecture Descriptors (`rt11-entrypoint/src/arch.rs`)

Each architecture module exports `asm_prefix`, `entry_align`, `entry_code`,
`entry_custom_begin` and `entry_custom_end`. `entry_code` and the custom
pads ignore their symbol argument in every architecture and expand to fixed
text (with `{0}` standing for the loader symbol operand), so they are
modelled as constant strings. -/

/-- The identifier `progbits` handed to `asm_prefix` by the generator. -/
def progbitsId : String := "progbits"

/-- One architecture's entry-stub descriptor. -/
structure Arch where
  asm_prefix : String → String
  entry_align : Nat
  entry_code : String
  entry_custom_begin : String
  entry_custom_end : String

/-- The closed set of supported architectures. -/
inductive ArchId where
  | arm
  | arm64
  | riscv64
  | x86
  | x86_64
deriving DecidableEq

/-- ARM 32-bit descriptor (`arch.rs`, module `arm`). -/
def armArch : Arch where
  asm_prefix := fun id => "%" ++ id
  entry_align := 0
  entry_code :=
    ".cfi_undefined r14;\n" ++ "mov r0, sp;\n" ++ "bl {0};\n" ++ "bx r0;\n"
  entry_custom_begin := ".fnstart;\n"
  entry_custom_end := ".fnend;\n"

/-- ARM 64-bit descriptor (`arch.rs`, module `arm64`). -/
def arm64Arch : Arch where
  asm_prefix := fun id => "%" ++ id
  entry_align := 16
  entry_code :=
    ".cfi_undefined x30;\n" ++ "mov x0, sp;\n" ++ "bl {0};\n" ++ "br x0;\n"
  entry_custom_begin := "bti c;\n"
  entry_custom_end := ""

/-- RISC-V 64-bit descriptor (`arch.rs`, module `riscv64`). -/
def riscv64Arch : Arch where
  asm_prefix := fun id => "%" ++ id
  entry_align := 16
  entry_code :=
    ".cfi_undefined ra;\n" ++ "mv a0, sp;\n" ++ "call {0};\n" ++ "jr a0;\n"
  entry_custom_begin := ""
  entry_custom_end := ""

/-- x86 (i686) descriptor (`arch.rs`, module `x86`). -/
def x86Arch : Arch where
  asm_prefix := fun id => "@" ++ id
  entry_align := 16
  entry_code :=
    ".cfi_undefined eip;\n" ++ "mov eax, esp;\n" ++ "sub esp, 12;\n"
      ++ "push eax;\n" ++ "call {0};\n" ++ "add esp, 16;\n" ++ "jmp eax;\n"
  entry_custom_begin := ""
  entry_custom_end := ""

/-- x86-64 descriptor (`arch.rs`, module `x86_64`). -/
def x86_64Arch : Arch where
  asm_prefix := fun id => "@" ++ id
  entry_align := 16
  entry_code :=
    ".cfi_undefined rip;\n" ++ "mov rdi, rsp;\n" ++ "call {0};\n"
      ++ "jmp rax;\n"
  entry_custom_begin := ""
  entry_custom_end := ""

/-- The descriptor of each supported architecture. -/
def archDescr : ArchId → Arch
  | ArchId.arm => armArch
  | ArchId.arm64 => arm64Arch
  | ArchId.riscv64 => riscv64Arch
  | ArchId.x86 => x86Arch
  | ArchId.x86_64 => x86_64Arch

/-- **C8.** For every architecture in the supported set, `entry_align` is
`0` for ARM32 and `16` for each of the four others; consequently it is
always either `0` or a power of two. -/
theorem entry_align_values (id : ArchId) :
    Arch.entry_align (archDescr id) = (if id = ArchId.arm then 0 else 16)
    ∧ (Arch.entry_align (archDescr id) = 0
        ∨ ∃ k : Nat, Arch.entry_align (archDescr id) = 2 ^ k) := by
  cases id
  · exact ⟨rfl, Or.inl rfl⟩
  · exact ⟨rfl, Or.inr ⟨4, rfl⟩⟩
  · exact ⟨rfl, Or.inr ⟨4, rfl⟩⟩
  · exact ⟨rfl, Or.inr ⟨4, rfl⟩⟩
  · exact ⟨rfl, Or.inr ⟨4, rfl⟩⟩

/-! ## Entry Stub Generator (`rt11-entrypoint/src/lib.rs`, macro `assembly!`,
and `rt11-loader/src/entry.rs`, macro `entry_assembly!`)

`core::concat!` of the macro expansion is modelled as `String.join` of the
pieces in source order. The two macros differ only in the spelling of the
size expression (`". - "` versus `".-"`). -/

/-- `assembly!(section, symbol)` from `rt11-entrypoint/src/lib.rs`. -/
def assembly (a : Arch) (sectionName symbolName : String) : String :=
  String.join
    [ ".pushsection .", sectionName, ", \"ax\", ",
      Arch.asm_prefix a progbitsId, ";\n",
      ".balign ", toString (Arch.entry_align a), ";\n",
      ".globl ", symbolName, ";\n",
      ".type ", symbolName, ", STT_FUNC;\n",
      symbolName, ":\n",
      Arch.entry_custom_begin a,
      ".cfi_startproc;\n",
      Arch.entry_code a,
      ".cfi_endproc;\n",
      Arch.entry_custom_end a,
      ".size ", symbolName, ", . - ", symbolName, ";\n",
      ".popsection;\n" ]

/-- `entry_assembly!(section, symbol)` from `rt11-loader/src/entry.rs`. -/
def entry_assembly (a : Arch) (sectionName symbolName : String) : String :=
  String.join
    [ ".pushsection .", sectionName, ", \"ax\", ",
      Arch.asm_prefix a progbitsId, ";\n",
      ".balign ", toString (Arch.entry_align a), ";\n",
      ".globl ", symbolName, ";\n",
      ".type ", symbolName, ", STT_FUNC;\n",
      symbolName, ":\n",
      Arch.entry_custom_begin a,
      ".cfi_startproc;\n",
      Arch.entry_code a,
      ".cfi_endproc;\n",
      Arch.entry_custom_end a,
      ".size ", symbolName, ", .-", symbolName, ";\n",
      ".popsection;\n" ]

/-- The stub layout as the spec words it, one emitted step per list entry,
in the claimed order: section opening with the architecture-correct type
marker, alignment directive, global declaration, function-type declaration,
label, custom-begin, frame-start marker, entry code, frame-end marker,
custom-end, size record (current position minus label), section restore.
The `sizeSpelling` argument carries the only difference between the two
generators (`", . - "` in `rt11-entrypoint`, `", .-"` in `rt11-loader`). -/
def stubLayout (a : Arch) (sectionName symbolName sizeSpelling : String) :
    List String :=
  [ ".pushsection ." ++ sectionName ++ ", \"ax\", "
      ++ Arch.asm_prefix a progbitsId ++ ";\n"
  , ".balign " ++ toString (Arch.entry_align a) ++ ";\n"
  , ".globl " ++ symbolName ++ ";\n"
  , ".type " ++ symbolName ++ ", STT_FUNC;\n"
  , symbolName ++ ":\n"
  , Arch.entry_custom_begin a
  , ".cfi_startproc;\n"
  , Arch.entry_code a
  , ".cfi_endproc;\n"
  , Arch.entry_custom_end a
  , ".size " ++ symbolName ++ sizeSpelling ++ symbolName ++ ";\n"
  , ".popsection;\n" ]

/-- **C4.** For every architecture descriptor, section name and symbol name,
the Entry Stub Generator produces exactly one self-contained text equal to
the concatenation, in the specified order, of: the allocated+executable
section opening with the architecture-correct type marker, the alignment
directive, the global and function-typed declarations of the symbol, the
label, custom-begin, the frame-start marker, the entry code, the frame-end
marker, custom-end, the size record (current position minus label), and the
section restore. This holds for both generator macros. -/
theorem assembly_layout (a : Arch) (sectionName symbolName : String) :
    assembly a sectionName symbolName
      = String.join (stubLayout a sectionName symbolName ", . - ")
    ∧ entry_assembly a sectionName symbolName
      = String.join (stubLayout a sectionName symbolName ", .-") := by
  constructor
  · simp only [assembly, stubLayout, String.join, List.foldl,
      String.empty_append, String.append_assoc]
  · simp only [entry_assembly, stubLayout, String.join, List.foldl,
      String.empty_append, String.append_assoc]

/-! ## Syscall Backends (`rt11-ffi-linux/src/{arm,arm64,riscv64,x86,x86_64}/syscall.rs`)

Each backend implements the seven operations with one inline-`asm!` block.
The block is transcribed as data: the privileged transition instruction, the
register carrying the syscall number, the registers that hold the arguments
when the instruction executes (for x86 arities 4-6 the staging
`xchg`/`push`-`pop` sequences place `arg3` in `esi` and `arg5` in `ebp`
around the `int $0x80`, as the source comments document), the register the
raw result is read from, and the registers declared unconditionally
clobbered (`out(...) _`). `svc 0` is the GNU-assembler spelling of
`svc #0`. Arities above six do not exist in the trait; the transcriptions
are total over `Nat` with every arity from six up reading the
six-argument block. -/

/-- Register-level description of one backend operation, transcribed from
its `core::arch::asm!` block. -/
structure AsmCall where
  instruction : String
  nr_reg : String
  arg_regs : List String
  ret_reg : String
  clobbers : List String
deriving DecidableEq

/-- ARM 32-bit backend: `svc 0`, number in `r7`, arguments in `r0`-`r5`,
result in `r0`, nothing unconditionally clobbered. -/
def armSyscall : Nat → AsmCall
  | 0 => ⟨"svc 0", "r7", [], "r0", []⟩
  | 1 => ⟨"svc 0", "r7", ["r0"], "r0", []⟩
  | 2 => ⟨"svc 0", "r7", ["r0", "r1"], "r0", []⟩
  | 3 => ⟨"svc 0", "r7", ["r0", "r1", "r2"], "r0", []⟩
  | 4 => ⟨"svc 0", "r7", ["r0", "r1", "r2", "r3"], "r0", []⟩
  | 5 => ⟨"svc 0", "r7", ["r0", "r1", "r2", "r3", "r4"], "r0", []⟩
  | _ => ⟨"svc 0", "r7", ["r0", "r1", "r2", "r3", "r4", "r5"], "r0", []⟩

/-- ARM 64-bit backend: `svc 0`, number in `x8`, arguments in `x0`-`x5`,
result in `x0`, nothing unconditionally clobbered. -/
def arm64Syscall : Nat → AsmCall
  | 0 => ⟨"svc 0", "x8", [], "x0", []⟩
  | 1 => ⟨"svc 0", "x8", ["x0"], "x0", []⟩
  | 2 => ⟨"svc 0", "x8", ["x0", "x1"], "x0", []⟩
  | 3 => ⟨"svc 0", "x8", ["x0", "x1", "x2"], "x0", []⟩
  | 4 => ⟨"svc 0", "x8", ["x0", "x1", "x2", "x3"], "x0", []⟩
  | 5 => ⟨"svc 0", "x8", ["x0", "x1", "x2", "x3", "x4"], "x0", []⟩
  | _ => ⟨"svc 0", "x8", ["x0", "x1", "x2", "x3", "x4", "x5"], "x0", []⟩

/-- RISC-V 64-bit backend: `ecall`, number in `a7`, arguments in `a0`-`a5`,
result in `a0`, nothing unconditionally clobbered. -/
def riscv64Syscall : Nat → AsmCall
  | 0 => ⟨"ecall", "a7", [], "a0", []⟩
  | 1 => ⟨"ecall", "a7", ["a0"], "a0", []⟩
  | 2 => ⟨"ecall", "a7", ["a0", "a1"], "a0", []⟩
  | 3 => ⟨"ecall", "a7", ["a0", "a1", "a2"], "a0", []⟩
  | 4 => ⟨"ecall", "a7", ["a0", "a1", "a2", "a3"], "a0", []⟩
  | 5 => ⟨"ecall", "a7", ["a0", "a1", "a2", "a3", "a4"], "a0", []⟩
  | _ => ⟨"ecall", "a7", ["a0", "a1", "a2", "a3", "a4", "a5"], "a0", []⟩

/-- x86 backend: `int $0x80`, number in `eax`, arguments in
`ebx`, `ecx`, `edx`, `esi`, `edi`, `ebp` (with `esi`/`ebp` staged around
the interrupt for arities 4-6), result in `eax`, nothing unconditionally
clobbered. -/
def x86Syscall : Nat → AsmCall
  | 0 => ⟨"int $0x80", "eax", [], "eax", []⟩
  | 1 => ⟨"int $0x80", "eax", ["ebx"], "eax", []⟩
  | 2 => ⟨"int $0x80", "eax", ["ebx", "ecx"], "eax", []⟩
  | 3 => ⟨"int $0x80", "eax", ["ebx", "ecx", "edx"], "eax", []⟩
  | 4 => ⟨"int $0x80", "eax", ["ebx", "ecx", "edx", "esi"], "eax", []⟩
  | 5 => ⟨"int $0x80", "eax", ["ebx", "ecx", "edx", "esi", "edi"], "eax", []⟩
  | _ => ⟨"int $0x80", "eax",
      ["ebx", "ecx", "edx", "esi", "edi", "ebp"], "eax", []⟩

/-- x86-64 backend: `syscall`, number in `rax`, arguments in
`rdi`, `rsi`, `rdx`, `r10`, `r8`, `r9`, result in `rax`, with `rcx` and
`r11` unconditionally clobbered at every arity. -/
def x86_64Syscall : Nat → AsmCall
  | 0 => ⟨"syscall", "rax", [], "rax", ["rcx", "r11"]⟩
  | 1 => ⟨"syscall", "rax", ["rdi"], "rax", ["rcx", "r11"]⟩
  | 2 => ⟨"syscall", "rax", ["rdi", "rsi"], "rax", ["rcx", "r11"]⟩
  | 3 => ⟨"syscall", "rax", ["rdi", "rsi", "rdx"], "rax", ["rcx", "r11"]⟩
  | 4 => ⟨"syscall", "rax", ["rdi", "rsi", "rdx", "r10"], "rax",
      ["rcx", "r11"]⟩
  | 5 => ⟨"syscall", "rax", ["rdi", "rsi", "rdx", "r10", "r8"], "rax",
      ["rcx", "r11"]⟩
  | _ => ⟨"syscall", "rax", ["rdi", "rsi", "rdx", "r10", "r8", "r9"], "rax",
      ["rcx", "r11"]⟩

/-- The backend of each architecture, by arity. -/
def syscallDesc : ArchId → Nat → AsmCall
  | ArchId.arm => armSyscall
  | ArchId.arm64 => arm64Syscall
  | ArchId.riscv64 => riscv64Syscall
  | ArchId.x86 => x86Syscall
  | ArchId.x86_64 => x86_64Syscall

/-- The spec's backend table (§4.3): the single transition instruction, the
number register, the six mandated argument registers in order, the result
register and the unconditional clobbers of each architecture. -/
def mandated : ArchId → AsmCall
  | ArchId.arm =>
      ⟨"svc 0", "r7", ["r0", "r1", "r2", "r3", "r4", "r5"], "r0", []⟩
  | ArchId.arm64 =>
      ⟨"svc 0", "x8", ["x0", "x1", "x2", "x3", "x4", "x5"], "x0", []⟩
  | ArchId.riscv64 =>
      ⟨"ecall", "a7", ["a0", "a1", "a2", "a3", "a4", "a5"], "a0", []⟩
  | ArchId.x86 =>
      ⟨"int $0x80", "eax", ["ebx", "ecx", "edx", "esi", "edi", "ebp"],
        "eax", []⟩
  | ArchId.x86_64 =>
      ⟨"syscall", "rax", ["rdi", "rsi", "rdx", "r10", "r8", "r9"], "rax",
        ["rcx", "r11"]⟩

/-- **C5.** For each of the five architecture backends and every arity
`n ∈ 0..6`, the operation performs the single privileged transition
instruction of that architecture, delivers the syscall number in the
mandated number register and the `n` arguments in the first `n` mandated
argument registers, returns the raw word from the mandated result register,
and unconditionally clobbers exactly the mandated clobber set — on x86-64
exactly `rcx` and `r11`, on the other architectures nothing. -/
theorem backend_registers (id : ArchId) (n : Fin 7) :
    syscallDesc id n.val
      = { instruction := (mandated id).instruction,
          nr_reg := (mandated id).nr_reg,
          arg_regs := (mandated id).arg_regs.take n.val,
          ret_reg := (mandated id).ret_reg,
          clobbers := (mandated id).clobbers } := by
  cases id <;> (revert n; decide)
